import Mathlib

/-!
Verification of the daemonization core of `iexec` (src/iexec.c) against its
natural-language specification.

The C program is embedded shallowly: every OS interaction is resolved through
an oracle record `OS` holding the result each system call would return, and the
run of `main` is a deterministic interpreter producing a trace of events
(system calls attempted, diagnostic messages printed) together with a final
outcome.  Each stage of `main` (argument check, resource-limit loop, user
switch, diagnostic-channel preserver, working-directory change, explicit fd
closes, stream redirection, fork/exec/pid-file) is a separate definition,
translated line by line from the source, and `runMain` is their composition in
source order.
-/

set_option maxHeartbeats 1000000

/-- Resource-limit pair as used by getrlimit/setrlimit.  `rlim_t` values are
64-bit unsigned integers; `RLIM_INFINITY` is the all-ones value. -/
structure Rlimit where
  rlim_cur : Nat
  rlim_max : Nat
deriving DecidableEq, Repr

/-- Linux `RLIM_INFINITY` for 64-bit `rlim_t`. -/
def RLIM_INFINITY : Nat := 2 ^ 64 - 1

/-- Number of resource-limit kinds iterated by the loop in `main`. -/
def RLIMIT_NLIMITS : Nat := 16

/-- Sentinel marking a limit half as "do not change" (iexec.c line 36). -/
def IEXEC_RLIMIT_UNCHANGED : Int := -2

/-- C conversion of a signed `int` limit value to the unsigned `rlim_t`
(assignment `current_limit.rlim_cur = soft_limit;` converts modulo 2^64). -/
def toRlim (x : Int) : Nat := (x % (2 ^ 64 : Int)).toNat

/-- The parsed configuration consumed by `main` (struct `iexec_config`).
The limit arrays are indexed by limit kind. -/
structure iexec_config where
  umask : Int
  keep_open : Bool
  fds_to_close : List Int
  use_stdin_file : String
  use_stdout_file : String
  use_stderr_file : String
  use_pid_file : Option String
  use_working_dir : Option String
  remaining_argv : List String
  soft_limits : Nat → Int
  hard_limits : Nat → Int
  username : Option String

/-- Result of an `access(2)` check as the code reads it: success, failure
with `errno == ENOENT`, or failure with any other errno. -/
inductive Access where
  | ok
  | enoent
  | eother
deriving DecidableEq, Repr

/-- Result of a `stat(2)` call: found (device and inode numbers), failure
with `ENOENT`, or failure with another errno. -/
inductive StatRes where
  | found (dev ino : Nat)
  | enoent
  | eother
deriving DecidableEq, Repr

/-- The errno kind the redirection stage distinguishes after `same_file`. -/
inductive ErrnoK where
  | enoent
  | other
deriving DecidableEq, Repr

/-- Oracle for every OS interaction `main` performs, in source order. -/
structure OS where
  getrlimit : Nat → Rlimit
  setrlimit_ok : Nat → Bool
  getpwnam_ok : Bool
  setuid_ok : Bool
  access_stdin : Access
  access_stdout : Access
  access_stderr : Access
  dup_result : Int
  cloexec_ok : Bool
  chdir_ok : Bool
  close_fd_ok : Int → Bool
  close_std_ok : Nat → Bool
  dup2_ok : Bool
  freopen_stdin_ok : Bool
  stat1 : StatRes
  creat_ok : Bool
  creat_errno : ErrnoK
  stat1_again : StatRes
  junk_dev : Nat
  junk_ino : Nat
  stat2 : StatRes
  freopen_stdout_ok : Bool
  ftruncate_ok : Bool
  freopen_stderr_ok : Bool
  fork_result : Int
  setsid_ok : Bool
  exec_ok : Bool
  pid_access : Access
  fopen_pid_ok : Bool
  fprintf_pid_ok : Bool

/-- The diagnostic messages `error(0, ...)` can print, with the payload the
code actually passes for each format directive. -/
inductive Msg where
  | progRequired
  | softExceedsHard (i : Nat) (soft : Int) (hard : Nat)
  | setLimitSoftFailed (i : Nat) (soft : Int)
  | setLimitHardFailed (i : Nat) (hard : Int)
  | userNotFound (u : String)
  | setuidFailed
  | stdinNotReadable (p : String)
  | stdoutNotWritable (p : String)
  | stderrNotWritable (p : String)
  | cannotCloexec
  | chdirFailed (d : String)
  | closeFdFailed (fd : Int)
  | closeStdinFailed
  | closeStdoutFailed
  | closeStderrFailed
  | freopenStdinFailed
  | statError
  | freopenStdoutFailed
  | truncateError
  | freopenStderrFailed
  | setsidFailed
  | execFailed (prog : String)
  | forkFailed
  | pidNotWritable (p : String)
  | pidOpenFailed (p : String)
  | pidWriteFailed (p : String)
deriving DecidableEq, Repr

/-- Trace events: each OS interaction attempted and each message printed.
`errMsg m` is a direct `error(0, ...)` call; `reportViaDup2 saved ok m`
models the idiom `if (dup2(saved, 2) == 2) error(0, ...)`: one attempt to
restore stderr from the saved duplicate, the message being printed only when
that restoration succeeds (`ok`). -/
inductive Ev where
  | errMsg (m : Msg)
  | reportViaDup2 (saved : Int) (ok : Bool) (m : Msg)
  | getrlimitEv (i : Nat) (r : Rlimit)
  | setrlimitEv (i : Nat) (r : Rlimit)
  | setuidEv (u : String)
  | accessEv (p : String)
  | dupStderrEv (fd : Int)
  | setCloexecEv (fd : Int)
  | chdirEv (d : String)
  | closeFdEv (fd : Int)
  | closeStdEv (fd : Nat)
  | freopenEv (p : String) (mode : String) (fd : Nat)
  | statEv (p : String)
  | creatEv (p : String)
  | ftruncateEv (fd : Nat)
  | forkEv (r : Int)
  | umaskEv (m : Int)
  | setsidEv
  | execEv (p : String)
  | pidAccessEv (p : String)
  | pidOpenEv (p : String) (mode : String)
  | pidWriteEv (p : String) (content : String)
  | pidCloseEv
deriving DecidableEq, Repr

/-- Final outcome of the traced process. -/
inductive Outcome where
  | exitFailure
  | parentExit0
  | childExec (prog : String) (args : List String)
deriving DecidableEq, Repr

/-- A stage either terminates the process (`done`) or continues (`cont`),
in both cases having emitted a trace. -/
inductive StageRes where
  | done (tr : List Ev) (out : Outcome)
  | cont (tr : List Ev)
deriving DecidableEq, Repr

/-- The trace a stage emitted. -/
def StageRes.trace : StageRes → List Ev
  | .done tr _ => tr
  | .cont tr => tr

/-- Whether the stage continued. -/
def StageRes.isCont : StageRes → Bool
  | .done _ _ => false
  | .cont _ => true

/-- Sequencing of stages: a terminated process stays terminated, traces are
concatenated. -/
def StageRes.seq : StageRes → StageRes → StageRes
  | .done tr o, _ => .done tr o
  | .cont tr, .done tr2 o => .done (tr ++ tr2) o
  | .cont tr, .cont tr2 => .cont (tr ++ tr2)

/-- iexec.c lines 390-393: a program must be provided. -/
def argsStage (cfg : iexec_config) : StageRes :=
  if cfg.remaining_argv.isEmpty then
    .done [.errMsg .progRequired] .exitFailure
  else
    .cont []

/-- iexec.c lines 406-426: overlay requested soft/hard values on the current
pair.  `none` means the requested soft value exceeded the finite current hard
ceiling (the check at lines 409-414, performed before the hard overlay);
otherwise the result is the pair handed to `setrlimit`, with the soft value
clamped down to a finite hard ceiling (lines 421-426). -/
def processLimit (soft_limit hard_limit : Int) (current_limit : Rlimit) : Option Rlimit :=
  if soft_limit > IEXEC_RLIMIT_UNCHANGED ∧ current_limit.rlim_max ≠ RLIM_INFINITY ∧
      toRlim soft_limit > current_limit.rlim_max then
    none
  else
    let c1 := if soft_limit > IEXEC_RLIMIT_UNCHANGED then
        { current_limit with rlim_cur := toRlim soft_limit } else current_limit
    let c2 := if hard_limit > IEXEC_RLIMIT_UNCHANGED then
        { c1 with rlim_max := toRlim hard_limit } else c1
    some (if c2.rlim_max ≠ RLIM_INFINITY ∧ c2.rlim_cur > c2.rlim_max then
        { c2 with rlim_cur := c2.rlim_max } else c2)

/-- iexec.c lines 399-437, body of the per-limit-kind iteration. -/
def rlimitStep (cfg : iexec_config) (os : OS) (i : Nat) : StageRes :=
  let soft_limit := cfg.soft_limits i
  let hard_limit := cfg.hard_limits i
  if soft_limit > IEXEC_RLIMIT_UNCHANGED ∨ hard_limit > IEXEC_RLIMIT_UNCHANGED then
    let current_limit := os.getrlimit i
    match processLimit soft_limit hard_limit current_limit with
    | none =>
      .done [.getrlimitEv i current_limit,
             .errMsg (.softExceedsHard i soft_limit current_limit.rlim_max)] .exitFailure
    | some c =>
      if os.setrlimit_ok i then
        .cont [.getrlimitEv i current_limit, .setrlimitEv i c]
      else
        .done ([.getrlimitEv i current_limit, .setrlimitEv i c] ++
               (if soft_limit ≠ IEXEC_RLIMIT_UNCHANGED then
                  [Ev.errMsg (.setLimitSoftFailed i soft_limit)] else []) ++
               (if hard_limit ≠ IEXEC_RLIMIT_UNCHANGED then
                  [Ev.errMsg (.setLimitHardFailed i hard_limit)] else []))
              .exitFailure
  else
    .cont []

/-- The resource-limit loop over the given limit kinds. -/
def rlimitLoop (cfg : iexec_config) (os : OS) : List Nat → StageRes
  | [] => .cont []
  | i :: rest => (rlimitStep cfg os i).seq (rlimitLoop cfg os rest)

/-- iexec.c lines 399-437: the whole resource-limit stage. -/
def rlimitStage (cfg : iexec_config) (os : OS) : StageRes :=
  rlimitLoop cfg os (List.range RLIMIT_NLIMITS)

/-- iexec.c lines 439-442 and 113-123 (`iexec_change_user`). -/
def userStage (cfg : iexec_config) (os : OS) : StageRes :=
  match cfg.username with
  | none => .cont []
  | some u =>
    if !os.getpwnam_ok then .done [.errMsg (.userNotFound u)] .exitFailure
    else if !os.setuid_ok then .done [.errMsg .setuidFailed] .exitFailure
    else .cont [.setuidEv u]

/-- Whether the `access` check is fatal: `access(...) != 0 && errno != ENOENT`. -/
def accessFatal : Access → Bool
  | .ok => false
  | .enoent => false
  | .eother => true

/-- iexec.c lines 444-467: when streams will be redirected, validate the three
configured stream paths and save a duplicate of stderr, marking it
close-on-exec.  Note (faithfully to line 457) the stderr message is formatted
with `config.use_stdout_file`, and neither a failed `dup` nor a failed
`fcntl` terminates the process. -/
def preserverStage (cfg : iexec_config) (os : OS) : StageRes :=
  if cfg.keep_open then .cont []
  else
    if accessFatal os.access_stdin then
      .done [.accessEv cfg.use_stdin_file,
             .errMsg (.stdinNotReadable cfg.use_stdin_file)] .exitFailure
    else if accessFatal os.access_stdout then
      .done [.accessEv cfg.use_stdin_file, .accessEv cfg.use_stdout_file,
             .errMsg (.stdoutNotWritable cfg.use_stdout_file)] .exitFailure
    else if accessFatal os.access_stderr then
      .done [.accessEv cfg.use_stdin_file, .accessEv cfg.use_stdout_file,
             .accessEv cfg.use_stderr_file,
             .errMsg (.stderrNotWritable cfg.use_stdout_file)] .exitFailure
    else
      let t := [Ev.accessEv cfg.use_stdin_file, Ev.accessEv cfg.use_stdout_file,
                Ev.accessEv cfg.use_stderr_file, Ev.dupStderrEv os.dup_result]
      if os.dup_result ≥ 0 then
        if os.cloexec_ok then .cont (t ++ [Ev.setCloexecEv os.dup_result])
        else .cont (t ++ [Ev.setCloexecEv os.dup_result, Ev.errMsg .cannotCloexec])
      else .cont t

/-- The value `saved_stderr_fd` holds after the preserver: 2 initially
(line 396), overwritten with the `dup` result inside the `!keep_open`
branch (line 460). -/
def savedFd (cfg : iexec_config) (os : OS) : Int :=
  if cfg.keep_open then 2 else os.dup_result

/-- iexec.c lines 469-476: optional working-directory change. -/
def chdirStage (cfg : iexec_config) (os : OS) : StageRes :=
  match cfg.use_working_dir with
  | none => .cont []
  | some d =>
    if os.chdir_ok then .cont [.chdirEv d]
    else .done [.chdirEv d, .errMsg (.chdirFailed d)] .exitFailure

/-- iexec.c lines 478-491: close each explicitly requested descriptor. -/
def closeFdsLoop (os : OS) : List Int → StageRes
  | [] => .cont []
  | fd :: rest =>
    if os.close_fd_ok fd then
      (StageRes.cont [.closeFdEv fd]).seq (closeFdsLoop os rest)
    else
      .done [.closeFdEv fd, .errMsg (.closeFdFailed fd)] .exitFailure

/-- iexec.c lines 345-371: do the two paths name the same file?  Creates the
first path when it does not exist.  Returns the trace of calls, the C return
value (1 same, 0 different, negative error) and, for the error case, the kind
of errno left behind. -/
def same_file (os : OS) (fn1 fn2 : String) : List Ev × Int × Option ErrnoK :=
  let step2 : List Ev → Nat × Nat → List Ev × Int × Option ErrnoK := fun tr s1 =>
    match os.stat2 with
    | .found d2 i2 =>
      (tr ++ [.statEv fn2], if s1.1 = d2 ∧ s1.2 = i2 then 1 else 0, none)
    | .enoent => (tr ++ [.statEv fn2], -1, some .enoent)
    | .eother => (tr ++ [.statEv fn2], -1, some .other)
  match os.stat1 with
  | .found d1 i1 => step2 [.statEv fn1] (d1, i1)
  | .eother => ([.statEv fn1], -1, some .other)
  | .enoent =>
    if os.creat_ok then
      let s1 := match os.stat1_again with
        | .found d i => (d, i)
        | _ => (os.junk_dev, os.junk_ino)
      step2 [.statEv fn1, .creatEv fn1, .statEv fn1] s1
    else
      ([.statEv fn1, .creatEv fn1], -1, some os.creat_errno)

/-- iexec.c lines 493-562: close and reopen the three standard streams.
`saved` is the preserved stderr duplicate used by the later failure paths. -/
def redirectStage (cfg : iexec_config) (os : OS) (saved : Int) : StageRes :=
  if cfg.keep_open then .cont []
  else
    if !os.close_std_ok 0 then
      .done [.closeStdEv 0, .errMsg .closeStdinFailed] .exitFailure
    else if !os.close_std_ok 1 then
      .done [.closeStdEv 0, .closeStdEv 1, .errMsg .closeStdoutFailed] .exitFailure
    else if !os.close_std_ok 2 then
      .done [.closeStdEv 0, .closeStdEv 1, .closeStdEv 2,
             .reportViaDup2 saved os.dup2_ok .closeStderrFailed] .exitFailure
    else
      let t1 := [Ev.closeStdEv 0, Ev.closeStdEv 1, Ev.closeStdEv 2,
                 Ev.freopenEv cfg.use_stdin_file "r" 0]
      if !os.freopen_stdin_ok then
        .done (t1 ++ [Ev.reportViaDup2 saved os.dup2_ok .freopenStdinFailed]) .exitFailure
      else
        let sf := same_file os cfg.use_stdout_file cfg.use_stderr_file
        let t2 := t1 ++ sf.1
        let outerr_same := sf.2.1
        if outerr_same < 0 ∧ sf.2.2 ≠ some ErrnoK.enoent then
          .done (t2 ++ [Ev.reportViaDup2 saved os.dup2_ok .statError]) .exitFailure
        else
          let open_mode := if outerr_same = 1 then "a" else "w"
          let t3 := t2 ++ [Ev.freopenEv cfg.use_stdout_file open_mode 1]
          if !os.freopen_stdout_ok then
            .done (t3 ++ [Ev.reportViaDup2 saved os.dup2_ok .freopenStdoutFailed]) .exitFailure
          else
            let t4 := t3 ++ (if outerr_same = 1 then
                [Ev.ftruncateEv 1] ++
                (if os.ftruncate_ok then []
                 else [Ev.reportViaDup2 saved os.dup2_ok .truncateError])
              else [])
            let t5 := t4 ++ [Ev.freopenEv cfg.use_stderr_file open_mode 2]
            if !os.freopen_stderr_ok then
              .done (t5 ++ [Ev.reportViaDup2 saved os.dup2_ok .freopenStderrFailed]) .exitFailure
            else
              .cont t5

/-- iexec.c lines 564-649: fork; child sets umask, calls setsid and execs;
parent optionally validates, opens, writes and closes the pid file, then exits
successfully.  The oracle's `fork_result` selects which process is traced. -/
def forkStage (cfg : iexec_config) (os : OS) (saved : Int) : StageRes :=
  let t0 := [Ev.forkEv os.fork_result]
  if os.fork_result = 0 then
    let t1 := t0 ++ (if cfg.umask ≥ 0 then [Ev.umaskEv cfg.umask] else [])
    let t2 := t1 ++ [Ev.setsidEv]
    if !os.setsid_ok then
      .done (t2 ++ [Ev.reportViaDup2 saved os.dup2_ok .setsidFailed]) .exitFailure
    else
      let prog := cfg.remaining_argv.headD ""
      let t3 := t2 ++ [Ev.execEv prog]
      if os.exec_ok then .done t3 (.childExec prog cfg.remaining_argv)
      else .done (t3 ++ [Ev.reportViaDup2 saved os.dup2_ok (.execFailed prog)]) .exitFailure
  else if os.fork_result < 0 then
    .done (t0 ++ [Ev.reportViaDup2 saved os.dup2_ok .forkFailed]) .exitFailure
  else
    match cfg.use_pid_file with
    | none => .done t0 .parentExit0
    | some p =>
      let t1 := t0 ++ [Ev.pidAccessEv p]
      if accessFatal os.pid_access then
        .done (t1 ++ [Ev.reportViaDup2 saved os.dup2_ok (.pidNotWritable p)]) .exitFailure
      else
        let t2 := t1 ++ [Ev.pidOpenEv p "w"]
        if !os.fopen_pid_ok then
          .done (t2 ++ [Ev.errMsg (.pidOpenFailed p)]) .exitFailure
        else
          let t3 := t2 ++ [Ev.pidWriteEv p (toString os.fork_result ++ "\n")]
          if !os.fprintf_pid_ok then
            .done (t3 ++ [Ev.reportViaDup2 saved os.dup2_ok (.pidWriteFailed p)]) .exitFailure
          else
            .done (t3 ++ [Ev.pidCloseEv]) .parentExit0

/-- The whole of `main` after option parsing, as the sequence of its stages in
source order. -/
def mainChain (cfg : iexec_config) (os : OS) : StageRes :=
  (argsStage cfg).seq
    ((rlimitStage cfg os).seq
      ((userStage cfg os).seq
        ((preserverStage cfg os).seq
          ((chdirStage cfg os).seq
            ((closeFdsLoop os cfg.fds_to_close).seq
              ((redirectStage cfg os (savedFd cfg os)).seq
                (forkStage cfg os (savedFd cfg os))))))))

/-- The traced run of `main`: events and final outcome.  (`forkStage` always
terminates, so the `cont` fallback, corresponding to the unreachable
`return 0` at the end of `main`, never fires.) -/
def runMain (cfg : iexec_config) (os : OS) : List Ev × Outcome :=
  match mainChain cfg os with
  | .done tr o => (tr, o)
  | .cont tr => (tr, .parentExit0)

/-! ### Derived definitions used to state the claims -/

/-- The stage of `main` a diagnostic message belongs to, in the order the
stages appear in the source: 0 argument check, 1 resource limits, 2 user
switch, 3 diagnostic-channel preserver, 4 working directory, 5 explicit fd
closes, 6 stream redirection, 7 fork/exec/pid file. -/
def msgStage : Msg → Nat
  | .progRequired => 0
  | .softExceedsHard _ _ _ => 1
  | .setLimitSoftFailed _ _ => 1
  | .setLimitHardFailed _ _ => 1
  | .userNotFound _ => 2
  | .setuidFailed => 2
  | .stdinNotReadable _ => 3
  | .stdoutNotWritable _ => 3
  | .stderrNotWritable _ => 3
  | .cannotCloexec => 3
  | .chdirFailed _ => 4
  | .closeFdFailed _ => 5
  | .closeStdinFailed => 6
  | .closeStdoutFailed => 6
  | .closeStderrFailed => 6
  | .freopenStdinFailed => 6
  | .statError => 6
  | .freopenStdoutFailed => 6
  | .truncateError => 6
  | .freopenStderrFailed => 6
  | .setsidFailed => 7
  | .execFailed _ => 7
  | .forkFailed => 7
  | .pidNotWritable _ => 7
  | .pidOpenFailed _ => 7
  | .pidWriteFailed _ => 7

/-- The stage of `main` each trace event belongs to (same numbering). -/
def evStage : Ev → Nat
  | .errMsg m => msgStage m
  | .reportViaDup2 _ _ m => msgStage m
  | .getrlimitEv _ _ => 1
  | .setrlimitEv _ _ => 1
  | .setuidEv _ => 2
  | .accessEv _ => 3
  | .dupStderrEv _ => 3
  | .setCloexecEv _ => 3
  | .chdirEv _ => 4
  | .closeFdEv _ => 5
  | .closeStdEv _ => 6
  | .freopenEv _ _ _ => 6
  | .statEv _ => 6
  | .creatEv _ => 6
  | .ftruncateEv _ => 6
  | .forkEv _ => 7
  | .umaskEv _ => 7
  | .setsidEv => 7
  | .execEv _ => 7
  | .pidAccessEv _ => 7
  | .pidOpenEv _ _ => 7
  | .pidWriteEv _ _ => 7
  | .pidCloseEv => 7

/-- Monotone-nondecreasing check for a list of naturals, with a lower bound
for the first element. -/
def sortedFrom (lo : Nat) : List Nat → Bool
  | [] => true
  | a :: rest => decide (lo ≤ a) && sortedFrom a rest

/-- Messages that the source prints only through the restore-then-print idiom
`if (dup2(saved_stderr_fd, 2) == 2) error(0, ...)`. -/
def lateMsg : Msg → Bool
  | .closeStderrFailed => true
  | .freopenStdinFailed => true
  | .statError => true
  | .freopenStdoutFailed => true
  | .truncateError => true
  | .freopenStderrFailed => true
  | .setsidFailed => true
  | .execFailed _ => true
  | .forkFailed => true
  | .pidNotWritable _ => true
  | .pidWriteFailed _ => true
  | _ => false

/-- A late-kind message printed directly, without a restoration attempt. -/
def bareLate : Ev → Bool
  | .errMsg m => lateMsg m
  | _ => false

/-- A late-kind message actually written to the error channel (a direct print,
or a restore-then-print whose restoration succeeded). -/
def writtenLateMsg : Ev → Bool
  | .errMsg m => lateMsg m
  | .reportViaDup2 _ ok m => ok && lateMsg m
  | _ => false

/-- Events that close, reopen or re-target one of the standard descriptors
0/1/2, or belong to the stream-redirection machinery (path validation, stderr
duplication, same-file stats, truncation).  `dup2(saved, 2)` re-targets
descriptor 2 only when `saved` differs from 2. -/
def touchesStd : Ev → Bool
  | .closeFdEv d => d == 0 || d == 1 || d == 2
  | .closeStdEv _ => true
  | .freopenEv _ _ _ => true
  | .accessEv _ => true
  | .dupStderrEv _ => true
  | .setCloexecEv _ => true
  | .statEv _ => true
  | .creatEv _ => true
  | .ftruncateEv _ => true
  | .reportViaDup2 saved _ _ => saved != 2
  | _ => false

/-- Was the fork attempted? -/
def isForkEv : Ev → Bool
  | .forkEv _ => true
  | _ => false

/-- A `setrlimit` call for limit kind `i`. -/
def isSetrlimitFor (i : Nat) : Ev → Bool
  | .setrlimitEv j _ => j == i
  | _ => false

/-- Any restore-stderr attempt (`dup2` onto descriptor 2). -/
def isReportEv : Ev → Bool
  | .reportViaDup2 _ _ _ => true
  | _ => false

/-- A `dup` of stderr (the preserver creating the diagnostic duplicate). -/
def isDupEv : Ev → Bool
  | .dupStderrEv _ => true
  | _ => false

/-- A working-directory change. -/
def isChdirEv : Ev → Bool
  | .chdirEv _ => true
  | _ => false

/-- Does some event satisfying `p` occur strictly before an event
satisfying `q`? -/
def precedes (p q : Ev → Bool) : List Ev → Bool
  | [] => false
  | e :: rest => if p e then rest.any q else precedes p q rest

/-- The soft value that results from overlaying a requested soft value on the
current pair (iexec.c lines 407-416). -/
def resultingSoft (soft_limit : Int) (current_limit : Rlimit) : Nat :=
  if soft_limit > IEXEC_RLIMIT_UNCHANGED then toRlim soft_limit else current_limit.rlim_cur

/-- Check written from the spec text: when both stat calls succeed,
`same_file` answers 1 exactly when device and inode both agree. -/
def sameFileAgrees (os : OS) (fn1 fn2 : String) : Bool :=
  match os.stat1, os.stat2 with
  | .found d1 i1, .found d2 i2 =>
    (same_file os fn1 fn2).2.1 == (if d1 = d2 ∧ i1 = i2 then (1 : Int) else 0)
  | _, _ => true

/-- Check written from the spec text: when the first (stdout) path is absent
and its creation succeeds, the creation happens before the second (stderr)
path is examined. -/
def createsWhenMissing (os : OS) (fn1 fn2 : String) : Bool :=
  match os.stat1 with
  | .enoent =>
    if os.creat_ok then
      (same_file os fn1 fn2).1 == [.statEv fn1, .creatEv fn1, .statEv fn1, .statEv fn2]
    else true
  | _ => true

/-- No resource-limit option at all was given. -/
def limitsUntouched (cfg : iexec_config) : Bool :=
  (List.range RLIMIT_NLIMITS).all fun i =>
    decide (cfg.soft_limits i ≤ IEXEC_RLIMIT_UNCHANGED) &&
    decide (cfg.hard_limits i ≤ IEXEC_RLIMIT_UNCHANGED)

/-! ### Concrete fixtures for witnesses and counterexamples -/

/-- An oracle where every OS call succeeds; `stat` reports the stdout and
stderr targets as distinct files, and `fork` returns pid 42. -/
def osOK : OS where
  getrlimit := fun _ => ⟨RLIM_INFINITY, RLIM_INFINITY⟩
  setrlimit_ok := fun _ => true
  getpwnam_ok := true
  setuid_ok := true
  access_stdin := .ok
  access_stdout := .ok
  access_stderr := .ok
  dup_result := 3
  cloexec_ok := true
  chdir_ok := true
  close_fd_ok := fun _ => true
  close_std_ok := fun _ => true
  dup2_ok := true
  freopen_stdin_ok := true
  stat1 := .found 1 1
  creat_ok := true
  creat_errno := .other
  stat1_again := .found 1 1
  junk_dev := 0
  junk_ino := 0
  stat2 := .found 1 2
  freopen_stdout_ok := true
  ftruncate_ok := true
  freopen_stderr_ok := true
  fork_result := 42
  setsid_ok := true
  exec_ok := true
  pid_access := .ok
  fopen_pid_ok := true
  fprintf_pid_ok := true

/-- The default configuration (`iexec_config_set_default_values`) with one
remaining argument. -/
def cfgDefault : iexec_config where
  umask := -1
  keep_open := false
  fds_to_close := []
  use_stdin_file := "/dev/null"
  use_stdout_file := "/dev/null"
  use_stderr_file := "/dev/null"
  use_pid_file := none
  use_working_dir := none
  remaining_argv := ["prog"]
  soft_limits := fun _ => IEXEC_RLIMIT_UNCHANGED
  hard_limits := fun _ => IEXEC_RLIMIT_UNCHANGED
  username := none

/-- C1 fixture: limit kind 7 requests soft value 10. -/
def cfgC1 : iexec_config :=
  { cfgDefault with soft_limits := fun j => if j = 7 then 10 else IEXEC_RLIMIT_UNCHANGED }

/-- C1 fixture: every current limit pair is (5, 5): hard ceiling finite. -/
def osC1 : OS := { osOK with getrlimit := fun _ => ⟨5, 5⟩ }

/-- C3 counterexample fixture: closing descriptor 0 fails. -/
def osC3 : OS := { osOK with close_std_ok := fun n => n != 0 }

/-- C3 witness fixture: restoring stderr with dup2 fails. -/
def osC3w : OS := { osOK with dup2_ok := false }

/-- C4/C10 fixture: both stream targets stat to the same device and inode. -/
def osC4 : OS := { osOK with stat2 := .found 1 1 }

/-- C5 counterexample fixture: a working directory is configured. -/
def cfgC5 : iexec_config := { cfgDefault with use_working_dir := some "/w" }

/-- C6 counterexample fixture: setting close-on-exec fails, fork returns in
the child, exec succeeds. -/
def osC6 : OS := { osOK with cloexec_ok := false, fork_result := 0 }

/-- C7 fixture: distinct stdout and stderr paths. -/
def cfgC7 : iexec_config :=
  { cfgDefault with use_stdout_file := "/a", use_stderr_file := "/b" }

/-- C7 fixture: the stderr path is not writable (errno other than ENOENT). -/
def osC7 : OS := { osOK with access_stderr := .eother }

/-- C8 counterexample fixture: keep streams open, but explicitly close fd 1. -/
def cfgC8 : iexec_config := { cfgDefault with keep_open := true, fds_to_close := [1] }

/-- C8 witness fixture: keep streams open, explicitly close only fd 5. -/
def cfgC8w : iexec_config := { cfgDefault with keep_open := true, fds_to_close := [5] }

/-- C9 fixture: a pid file is configured. -/
def cfgC9 : iexec_config := { cfgDefault with use_pid_file := some "/run/d.pid" }

/-- C10 fixture: stream targets are the same file, truncation fails, fork
returns in the child. -/
def osC10 : OS := { osOK with stat2 := .found 1 1, ftruncate_ok := false, fork_result := 0 }

/-! ### Basic lemmas about stage sequencing and traces -/

@[simp] theorem StageRes.done_seq (tr : List Ev) (o : Outcome) (r : StageRes) :
    (StageRes.done tr o).seq r = .done tr o := rfl

@[simp] theorem StageRes.cont_seq_done (tr tr2 : List Ev) (o : Outcome) :
    (StageRes.cont tr).seq (.done tr2 o) = .done (tr ++ tr2) o := rfl

@[simp] theorem StageRes.cont_seq_cont (tr tr2 : List Ev) :
    (StageRes.cont tr).seq (.cont tr2) = .cont (tr ++ tr2) := rfl

@[simp] theorem StageRes.trace_done (tr : List Ev) (o : Outcome) :
    (StageRes.done tr o).trace = tr := rfl

@[simp] theorem StageRes.trace_cont (tr : List Ev) :
    (StageRes.cont tr).trace = tr := rfl

theorem StageRes.trace_seq_all (p : Ev → Bool) (r1 r2 : StageRes)
    (h1 : r1.trace.all p = true) (h2 : r2.trace.all p = true) :
    (r1.seq r2).trace.all p = true := by
  cases r1 <;> cases r2 <;> simp_all [StageRes.seq, List.all_append]

theorem runMain_fst (cfg : iexec_config) (os : OS) :
    (runMain cfg os).1 = (mainChain cfg os).trace := by
  unfold runMain
  cases h : mainChain cfg os <;> simp [h]

/-! ### Generic per-stage lemmas: every event a stage can emit satisfies p -/

theorem argsStage_all (cfg : iexec_config) (p : Ev → Bool)
    (h : p (.errMsg .progRequired) = true) :
    (argsStage cfg).trace.all p = true := by
  unfold argsStage
  split <;> simp [h]

theorem rlimitStep_all (cfg : iexec_config) (os : OS) (i : Nat) (p : Ev → Bool)
    (hg : ∀ r, p (.getrlimitEv i r) = true)
    (hs : ∀ r, p (.setrlimitEv i r) = true)
    (he1 : ∀ s h, p (.errMsg (.softExceedsHard i s h)) = true)
    (he2 : ∀ s, p (.errMsg (.setLimitSoftFailed i s)) = true)
    (he3 : ∀ h, p (.errMsg (.setLimitHardFailed i h)) = true) :
    (rlimitStep cfg os i).trace.all p = true := by
  unfold rlimitStep
  repeat' split
  all_goals try simp_all [List.all_append]
  all_goals repeat' split
  all_goals simp_all [List.all_append]

theorem rlimitLoop_all (cfg : iexec_config) (os : OS) (p : Ev → Bool)
    (hstep : ∀ i, (rlimitStep cfg os i).trace.all p = true) :
    ∀ l : List Nat, (rlimitLoop cfg os l).trace.all p = true
  | [] => rfl
  | i :: rest => by
    unfold rlimitLoop
    exact StageRes.trace_seq_all p _ _ (hstep i) (rlimitLoop_all cfg os p hstep rest)

theorem userStage_all (cfg : iexec_config) (os : OS) (p : Ev → Bool)
    (h1 : ∀ u, p (.setuidEv u) = true)
    (h2 : ∀ u, p (.errMsg (.userNotFound u)) = true)
    (h3 : p (.errMsg .setuidFailed) = true) :
    (userStage cfg os).trace.all p = true := by
  unfold userStage
  repeat' split
  all_goals simp_all

theorem preserverStage_all (cfg : iexec_config) (os : OS) (p : Ev → Bool)
    (h1 : ∀ q, p (.accessEv q) = true)
    (h2 : ∀ fd, p (.dupStderrEv fd) = true)
    (h3 : ∀ fd, p (.setCloexecEv fd) = true)
    (h4 : ∀ q, p (.errMsg (.stdinNotReadable q)) = true)
    (h5 : ∀ q, p (.errMsg (.stdoutNotWritable q)) = true)
    (h6 : ∀ q, p (.errMsg (.stderrNotWritable q)) = true)
    (h7 : p (.errMsg .cannotCloexec) = true) :
    (preserverStage cfg os).trace.all p = true := by
  unfold preserverStage
  repeat' split
  all_goals simp_all

theorem chdirStage_all (cfg : iexec_config) (os : OS) (p : Ev → Bool)
    (h1 : ∀ d, p (.chdirEv d) = true)
    (h2 : ∀ d, p (.errMsg (.chdirFailed d)) = true) :
    (chdirStage cfg os).trace.all p = true := by
  unfold chdirStage
  repeat' split
  all_goals simp_all

theorem closeFdsLoop_all (os : OS) (p : Ev → Bool) :
    ∀ l : List Int,
      (∀ fd ∈ l, p (.closeFdEv fd) = true ∧ p (.errMsg (.closeFdFailed fd)) = true) →
      (closeFdsLoop os l).trace.all p = true
  | [], _ => rfl
  | fd :: rest, h => by
    unfold closeFdsLoop
    have hfd := h fd (by simp)
    have hrest := closeFdsLoop_all os p rest (fun d hd => h d (by simp [hd]))
    split
    · exact StageRes.trace_seq_all p _ _ (by simp [hfd.1]) hrest
    · simp [hfd.1, hfd.2]

theorem same_file_all (os : OS) (fn1 fn2 : String) (p : Ev → Bool)
    (h1 : ∀ q, p (.statEv q) = true)
    (h2 : ∀ q, p (.creatEv q) = true) :
    (same_file os fn1 fn2).1.all p = true := by
  unfold same_file
  repeat' split
  all_goals simp_all

theorem redirectStage_all (cfg : iexec_config) (os : OS) (saved : Int) (p : Ev → Bool)
    (h1 : ∀ n, p (.closeStdEv n) = true)
    (h2 : p (.errMsg .closeStdinFailed) = true)
    (h3 : p (.errMsg .closeStdoutFailed) = true)
    (hrA : p (.reportViaDup2 saved os.dup2_ok .closeStderrFailed) = true)
    (hrB : p (.reportViaDup2 saved os.dup2_ok .freopenStdinFailed) = true)
    (hrC : p (.reportViaDup2 saved os.dup2_ok .statError) = true)
    (hrD : p (.reportViaDup2 saved os.dup2_ok .freopenStdoutFailed) = true)
    (hrE : p (.reportViaDup2 saved os.dup2_ok .truncateError) = true)
    (hrF : p (.reportViaDup2 saved os.dup2_ok .freopenStderrFailed) = true)
    (hfre : ∀ q mo n, p (.freopenEv q mo n) = true)
    (hftr : ∀ n, p (.ftruncateEv n) = true)
    (hst : ∀ q, p (.statEv q) = true)
    (hcr : ∀ q, p (.creatEv q) = true) :
    (redirectStage cfg os saved).trace.all p = true := by
  have hsf := same_file_all os cfg.use_stdout_file cfg.use_stderr_file p hst hcr
  unfold redirectStage
  repeat' split
  all_goals try simp_all [List.all_append]
  all_goals repeat' split
  all_goals try simp_all [List.all_append]
  all_goals aesop

theorem forkStage_all (cfg : iexec_config) (os : OS) (saved : Int) (p : Ev → Bool)
    (h1 : ∀ r, p (.forkEv r) = true)
    (h2 : ∀ m, p (.umaskEv m) = true)
    (h3 : p .setsidEv = true)
    (h4 : ∀ q, p (.execEv q) = true)
    (hr1 : p (.reportViaDup2 saved os.dup2_ok .setsidFailed) = true)
    (hr2 : ∀ q, p (.reportViaDup2 saved os.dup2_ok (.execFailed q)) = true)
    (hr3 : p (.reportViaDup2 saved os.dup2_ok .forkFailed) = true)
    (hr4 : ∀ q, p (.reportViaDup2 saved os.dup2_ok (.pidNotWritable q)) = true)
    (hr5 : ∀ q, p (.reportViaDup2 saved os.dup2_ok (.pidWriteFailed q)) = true)
    (h5 : ∀ q, p (.pidAccessEv q) = true)
    (h6 : ∀ q mo, p (.pidOpenEv q mo) = true)
    (h7 : ∀ q c, p (.pidWriteEv q c) = true)
    (h8 : p .pidCloseEv = true)
    (h9 : ∀ q, p (.errMsg (.pidOpenFailed q)) = true) :
    (forkStage cfg os saved).trace.all p = true := by
  unfold forkStage
  repeat' split
  all_goals simp_all [List.all_append]

theorem mainChain_all (cfg : iexec_config) (os : OS) (p : Ev → Bool)
    (hA : (argsStage cfg).trace.all p = true)
    (hR : (rlimitStage cfg os).trace.all p = true)
    (hU : (userStage cfg os).trace.all p = true)
    (hP : (preserverStage cfg os).trace.all p = true)
    (hC : (chdirStage cfg os).trace.all p = true)
    (hF : (closeFdsLoop os cfg.fds_to_close).trace.all p = true)
    (hD : (redirectStage cfg os (savedFd cfg os)).trace.all p = true)
    (hK : (forkStage cfg os (savedFd cfg os)).trace.all p = true) :
    (mainChain cfg os).trace.all p = true := by
  unfold mainChain
  exact StageRes.trace_seq_all p _ _ hA
    (StageRes.trace_seq_all p _ _ hR
      (StageRes.trace_seq_all p _ _ hU
        (StageRes.trace_seq_all p _ _ hP
          (StageRes.trace_seq_all p _ _ hC
            (StageRes.trace_seq_all p _ _ hF
              (StageRes.trace_seq_all p _ _ hD hK))))))

/-! ### Ordering machinery for the stage-order claim -/

theorem sortedFrom_mono (lo k : Nat) (h : lo ≤ k) :
    ∀ l : List Nat, sortedFrom k l = true → sortedFrom lo l = true
  | [], _ => rfl
  | a :: rest, hs => by
    simp only [sortedFrom, Bool.and_eq_true, decide_eq_true_eq] at hs ⊢
    exact ⟨le_trans h hs.1, hs.2⟩

theorem sortedFrom_const (k : Nat) :
    ∀ (lo : Nat) (A : List Nat), lo ≤ k → (∀ a ∈ A, a = k) → sortedFrom lo A = true
  | _, [], _, _ => rfl
  | lo, a :: rest, hlo, hA => by
    simp only [sortedFrom, Bool.and_eq_true, decide_eq_true_eq]
    have ha : a = k := hA a (by simp)
    subst ha
    exact ⟨hlo, sortedFrom_const a a rest le_rfl (fun b hb => hA b (by simp [hb]))⟩

theorem sortedFrom_append_const (k : Nat) :
    ∀ (lo : Nat) (A B : List Nat), (∀ a ∈ A, a = k) → lo ≤ k →
      sortedFrom k B = true → sortedFrom lo (A ++ B) = true
  | lo, [], B, _, hlo, hB => by
    simpa using sortedFrom_mono lo k hlo B hB
  | lo, a :: rest, B, hA, hlo, hB => by
    simp only [List.cons_append, sortedFrom, Bool.and_eq_true, decide_eq_true_eq]
    have ha : a = k := hA a (by simp)
    subst ha
    exact ⟨hlo, sortedFrom_append_const a a rest B (fun b hb => hA b (by simp [hb])) le_rfl hB⟩

theorem seq_sorted (lo k : Nat) (r1 r2 : StageRes)
    (h1 : r1.trace.all (fun e => evStage e == k) = true) (hlo : lo ≤ k)
    (h2 : sortedFrom k (r2.trace.map evStage) = true) :
    sortedFrom lo ((r1.seq r2).trace.map evStage) = true := by
  have hmem : ∀ a ∈ r1.trace.map evStage, a = k := by
    intro a ha
    rcases List.mem_map.mp ha with ⟨e, he, rfl⟩
    have := List.all_eq_true.mp h1 e he
    simpa using this
  cases r1 with
  | done tr o =>
    simpa using sortedFrom_const k lo (tr.map evStage) hlo (by simpa using hmem)
  | cont tr =>
    cases r2 <;>
      simpa [StageRes.seq, List.map_append] using
        sortedFrom_append_const k lo (tr.map evStage) _ (by simpa using hmem) hlo h2

/-! ### Reduction lemmas for the resource-limit loop -/

theorem rlimitStep_skip (cfg : iexec_config) (os : OS) (i : Nat)
    (h1 : cfg.soft_limits i ≤ IEXEC_RLIMIT_UNCHANGED)
    (h2 : cfg.hard_limits i ≤ IEXEC_RLIMIT_UNCHANGED) :
    rlimitStep cfg os i = .cont [] := by
  unfold rlimitStep
  rw [if_neg]
  push_neg
  exact ⟨h1, h2⟩

theorem rlimitLoop_skip (cfg : iexec_config) (os : OS) :
    ∀ l : List Nat,
      (∀ i ∈ l, cfg.soft_limits i ≤ IEXEC_RLIMIT_UNCHANGED ∧
        cfg.hard_limits i ≤ IEXEC_RLIMIT_UNCHANGED) →
      rlimitLoop cfg os l = .cont []
  | [], _ => rfl
  | i :: rest, h => by
    have hi := h i (by simp)
    unfold rlimitLoop
    rw [rlimitStep_skip cfg os i hi.1 hi.2,
        rlimitLoop_skip cfg os rest (fun j hj => h j (by simp [hj]))]
    rfl

theorem rlimitStep_done_failure (cfg : iexec_config) (os : OS) (i : Nat)
    (tr : List Ev) (o : Outcome) (h : rlimitStep cfg os i = .done tr o) :
    o = .exitFailure := by
  unfold rlimitStep at h
  simp only [] at h
  repeat' split at h
  all_goals simp_all

/-- If the requested soft value for kind `i` exceeds the finite current hard
ceiling, the loop over any kind list containing `i` terminates the process
with a failure, without forking and without ever committing a limit pair for
kind `i`. -/
theorem rlimitLoop_fail (cfg : iexec_config) (os : OS) (i : Nat)
    (hsoft : cfg.soft_limits i > IEXEC_RLIMIT_UNCHANGED)
    (hfin : (os.getrlimit i).rlim_max ≠ RLIM_INFINITY)
    (hex : toRlim (cfg.soft_limits i) > (os.getrlimit i).rlim_max) :
    ∀ l : List Nat, i ∈ l →
      ∃ tr, rlimitLoop cfg os l = .done tr .exitFailure ∧
        tr.all (fun e => !isForkEv e) = true ∧
        tr.all (fun e => !isSetrlimitFor i e) = true
  | [], hl => absurd hl (by simp)
  | j :: rest, hl => by
    by_cases hji : j = i
    · subst hji
      have hstep : rlimitStep cfg os j =
          .done [.getrlimitEv j (os.getrlimit j),
                 .errMsg (.softExceedsHard j (cfg.soft_limits j) (os.getrlimit j).rlim_max)]
            .exitFailure := by
        have hnone : processLimit (cfg.soft_limits j) (cfg.hard_limits j) (os.getrlimit j)
            = none := by
          unfold processLimit
          rw [if_pos ⟨hsoft, hfin, hex⟩]
        unfold rlimitStep
        simp only []
        rw [if_pos (Or.inl hsoft), hnone]
      refine ⟨[.getrlimitEv j (os.getrlimit j),
               .errMsg (.softExceedsHard j (cfg.soft_limits j) (os.getrlimit j).rlim_max)],
              ?_, ?_, ?_⟩
      · unfold rlimitLoop
        rw [hstep]
        rfl
      · simp [isForkEv]
      · simp [isSetrlimitFor]
    · cases hstep : rlimitStep cfg os j with
      | done tr o =>
        have ho := rlimitStep_done_failure cfg os j tr o hstep
        subst ho
        have hfork : tr.all (fun e => !isForkEv e) = true := by
          have := rlimitStep_all cfg os j (fun e => !isForkEv e)
            (fun r => rfl) (fun r => rfl) (fun s h => rfl) (fun s => rfl) (fun h => rfl)
          rw [hstep] at this
          simpa using this
        have hset : tr.all (fun e => !isSetrlimitFor i e) = true := by
          have := rlimitStep_all cfg os j (fun e => !isSetrlimitFor i e)
            (fun r => rfl) (fun r => by simp [isSetrlimitFor, hji]) (fun s h => rfl)
            (fun s => rfl) (fun h => rfl)
          rw [hstep] at this
          simpa using this
        refine ⟨tr, ?_, hfork, hset⟩
        unfold rlimitLoop
        rw [hstep]
        rfl
      | cont tr =>
        have hirest : i ∈ rest := by
          rcases List.mem_cons.mp hl with h | h
          · exact absurd h.symm hji
          · exact h
        obtain ⟨tr2, hloop, hfork2, hset2⟩ :=
          rlimitLoop_fail cfg os i hsoft hfin hex rest hirest
        have hfork : tr.all (fun e => !isForkEv e) = true := by
          have := rlimitStep_all cfg os j (fun e => !isForkEv e)
            (fun r => rfl) (fun r => rfl) (fun s h => rfl) (fun s => rfl) (fun h => rfl)
          rw [hstep] at this
          simpa using this
        have hset : tr.all (fun e => !isSetrlimitFor i e) = true := by
          have := rlimitStep_all cfg os j (fun e => !isSetrlimitFor i e)
            (fun r => rfl) (fun r => by simp [isSetrlimitFor, hji]) (fun s h => rfl)
            (fun s => rfl) (fun h => rfl)
          rw [hstep] at this
          simpa using this
        refine ⟨tr ++ tr2, ?_, ?_, ?_⟩
        · unfold rlimitLoop
          rw [hstep, hloop]
          rfl
        · simp_all [List.all_append]
        · simp_all [List.all_append]

/-! ### Claim theorems -/

/-- C1: for every limit kind whose requested soft value is set (non-sentinel)
and whose current hard ceiling read from the OS is finite, if the requested
soft value exceeds that current hard ceiling (before any hard-value change
requested in the same invocation is applied), then the program exits with
failure status before any fork occurs, no child process is created, and the
requested soft value is never committed (no `setrlimit` for that kind). -/
theorem C1_soft_exceeds_current_hard (cfg : iexec_config) (os : OS) (i : Nat)
    (hi : i < RLIMIT_NLIMITS)
    (hsoft : cfg.soft_limits i > IEXEC_RLIMIT_UNCHANGED)
    (hfin : (os.getrlimit i).rlim_max ≠ RLIM_INFINITY)
    (hex : toRlim (cfg.soft_limits i) > (os.getrlimit i).rlim_max) :
    (runMain cfg os).2 = .exitFailure ∧
    (runMain cfg os).1.all (fun e => !isForkEv e) = true ∧
    (runMain cfg os).1.all (fun e => !isSetrlimitFor i e) = true := by
  unfold runMain mainChain
  cases hargs : argsStage cfg with
  | done tr o =>
    have htr : tr = [.errMsg .progRequired] ∧ o = .exitFailure := by
      unfold argsStage at hargs
      split at hargs <;> simp_all
    obtain ⟨rfl, rfl⟩ := htr
    simp [isForkEv, isSetrlimitFor]
  | cont tr =>
    have htr : tr = [] := by
      unfold argsStage at hargs
      split at hargs <;> simp_all
    subst htr
    obtain ⟨tr2, hloop, hfork, hset⟩ :=
      rlimitLoop_fail cfg os i hsoft hfin hex (List.range RLIMIT_NLIMITS)
        (List.mem_range.mpr hi)
    have hstage : rlimitStage cfg os = .done tr2 .exitFailure := hloop
    rw [hstage]
    simp [hfork, hset]

/-- C1 witness: a concrete run (soft request 10 for kind 7, current pair
(5, 5)) exercising the theorem. -/
theorem C1_witness :
    ((7 : Nat) < RLIMIT_NLIMITS ∧
     cfgC1.soft_limits 7 > IEXEC_RLIMIT_UNCHANGED ∧
     (osC1.getrlimit 7).rlim_max ≠ RLIM_INFINITY ∧
     toRlim (cfgC1.soft_limits 7) > (osC1.getrlimit 7).rlim_max) ∧
    (runMain cfgC1 osC1).2 = .exitFailure ∧
    (runMain cfgC1 osC1).1.all (fun e => !isForkEv e) = true ∧
    (runMain cfgC1 osC1).1.all (fun e => !isSetrlimitFor 7 e) = true :=
  ⟨⟨by decide, by decide, by decide, by decide⟩,
   C1_soft_exceeds_current_hard cfgC1 osC1 7 (by decide) (by decide) (by decide) (by decide)⟩

/-- C2: if the same invocation sets a finite hard value below the resulting
soft value (the newly requested soft value, or the inherited current one),
then — provided the soft request passes its own validity check against the
current hard ceiling — the pair committed to `setrlimit` has its soft value
clamped to the new hard value, and the overlay cannot fail for this reason. -/
theorem C2_hard_shrink_clamps (soft_limit hard_limit : Int) (current_limit : Rlimit)
    (hh : hard_limit > IEXEC_RLIMIT_UNCHANGED)
    (hfin : toRlim hard_limit ≠ RLIM_INFINITY)
    (hlt : resultingSoft soft_limit current_limit > toRlim hard_limit)
    (hvalid : soft_limit > IEXEC_RLIMIT_UNCHANGED →
      ¬(current_limit.rlim_max ≠ RLIM_INFINITY ∧
        toRlim soft_limit > current_limit.rlim_max)) :
    processLimit soft_limit hard_limit current_limit =
      some ⟨toRlim hard_limit, toRlim hard_limit⟩ := by
  unfold processLimit
  rw [if_neg (fun hcon => (hvalid hcon.1) ⟨hcon.2.1, hcon.2.2⟩)]
  simp only []
  by_cases hs : soft_limit > IEXEC_RLIMIT_UNCHANGED
  · rw [if_pos hs, if_pos hh, if_pos]
    · exact ⟨hfin, by simpa [resultingSoft, hs] using hlt⟩
  · rw [if_neg hs, if_pos hh, if_pos]
    · exact ⟨hfin, by simpa [resultingSoft, hs] using hlt⟩

/-- C2 witness: no soft request, current pair (10, infinity), new hard 5:
the committed pair is (5, 5). -/
theorem C2_witness :
    ((5 : Int) > IEXEC_RLIMIT_UNCHANGED ∧
     toRlim 5 ≠ RLIM_INFINITY ∧
     resultingSoft (-2) ⟨10, RLIM_INFINITY⟩ > toRlim 5) ∧
    processLimit (-2) 5 ⟨10, RLIM_INFINITY⟩ = some ⟨toRlim 5, toRlim 5⟩ :=
  ⟨⟨by decide, by decide, by decide⟩,
   C2_hard_shrink_clamps (-2) 5 ⟨10, RLIM_INFINITY⟩ (by decide) (by decide) (by decide)
     (by decide)⟩

/-- C7: the code formats the "file specified with -e is not writable" message
with `config.use_stdout_file` (iexec.c line 457), so with stdout path "/a" and
stderr path "/b", an unwritable stderr path produces a message naming "/a",
not the configured stderr path "/b" — contradicting the claim, whose intent is
also witnessed by the format string itself. -/
theorem C7_stderr_message_names_stdout_path :
    cfgC7.use_stderr_file = "/b" ∧
    Ev.errMsg (.stderrNotWritable "/a") ∈ (runMain cfgC7 osC7).1 ∧
    Ev.errMsg (.stderrNotWritable "/b") ∉ (runMain cfgC7 osC7).1 ∧
    (runMain cfgC7 osC7).2 = .exitFailure := by
  decide

/-! ### Per-stage event classification (for the stage-order claim) -/

theorem sortedFrom_of_all (k lo : Nat) (hlo : lo ≤ k) (tr : List Ev)
    (h : tr.all (fun e => evStage e == k) = true) :
    sortedFrom lo (tr.map evStage) = true := by
  apply sortedFrom_const k lo _ hlo
  intro a ha
  rcases List.mem_map.mp ha with ⟨e, he, rfl⟩
  simpa using List.all_eq_true.mp h e he

theorem argsStage_stage (cfg : iexec_config) :
    (argsStage cfg).trace.all (fun e => evStage e == 0) = true :=
  argsStage_all cfg _ rfl

theorem rlimitStage_stage (cfg : iexec_config) (os : OS) :
    (rlimitStage cfg os).trace.all (fun e => evStage e == 1) = true :=
  rlimitLoop_all cfg os _
    (fun i => rlimitStep_all cfg os i _ (fun _ => rfl) (fun _ => rfl) (fun _ _ => rfl)
      (fun _ => rfl) (fun _ => rfl)) _

theorem userStage_stage (cfg : iexec_config) (os : OS) :
    (userStage cfg os).trace.all (fun e => evStage e == 2) = true :=
  userStage_all cfg os _ (fun _ => rfl) (fun _ => rfl) rfl

theorem preserverStage_stage (cfg : iexec_config) (os : OS) :
    (preserverStage cfg os).trace.all (fun e => evStage e == 3) = true :=
  preserverStage_all cfg os _ (fun _ => rfl) (fun _ => rfl) (fun _ => rfl) (fun _ => rfl)
    (fun _ => rfl) (fun _ => rfl) rfl

theorem chdirStage_stage (cfg : iexec_config) (os : OS) :
    (chdirStage cfg os).trace.all (fun e => evStage e == 4) = true :=
  chdirStage_all cfg os _ (fun _ => rfl) (fun _ => rfl)

theorem closeFdsLoop_stage (os : OS) (l : List Int) :
    (closeFdsLoop os l).trace.all (fun e => evStage e == 5) = true :=
  closeFdsLoop_all os _ l (fun _ _ => ⟨rfl, rfl⟩)

theorem redirectStage_stage (cfg : iexec_config) (os : OS) (saved : Int) :
    (redirectStage cfg os saved).trace.all (fun e => evStage e == 6) = true :=
  redirectStage_all cfg os saved _ (fun _ => rfl) rfl rfl rfl rfl rfl rfl rfl rfl
    (fun _ _ _ => rfl) (fun _ => rfl) (fun _ => rfl) (fun _ => rfl)

theorem forkStage_stage (cfg : iexec_config) (os : OS) (saved : Int) :
    (forkStage cfg os saved).trace.all (fun e => evStage e == 7) = true :=
  forkStage_all cfg os saved _ (fun _ => rfl) (fun _ => rfl) rfl (fun _ => rfl) rfl
    (fun _ => rfl) rfl (fun _ => rfl) (fun _ => rfl) (fun _ => rfl) (fun _ _ => rfl)
    (fun _ _ => rfl) rfl (fun _ => rfl)

/-- C5 counterexample: with a configured working directory, the stderr
duplicate (diagnostic-channel preserver) is created strictly before the
working-directory change — an identity/environment step — contradicting the
claimed order. -/
theorem C5_counterexample :
    cfgC5.use_working_dir = some "/w" ∧
    precedes isDupEv isChdirEv (runMain cfgC5 osOK).1 = true := by
  decide

/-- C5 (amended): the stages execute in the order: argument check,
resource-limit adjustment, user-identity switch, diagnostic-channel preserver
(stream-path validation and the stderr duplicate), working-directory change,
explicit file-descriptor closes, stream redirection, fork/exec/pid-file — in
every run the stage indices of the emitted events are nondecreasing. -/
theorem C5_stage_order (cfg : iexec_config) (os : OS) :
    sortedFrom 0 ((runMain cfg os).1.map evStage) = true := by
  rw [runMain_fst]
  unfold mainChain
  refine seq_sorted 0 0 _ _ (argsStage_stage cfg) le_rfl ?_
  refine seq_sorted 0 1 _ _ (rlimitStage_stage cfg os) (by norm_num) ?_
  refine seq_sorted 1 2 _ _ (userStage_stage cfg os) (by norm_num) ?_
  refine seq_sorted 2 3 _ _ (preserverStage_stage cfg os) (by norm_num) ?_
  refine seq_sorted 3 4 _ _ (chdirStage_stage cfg os) (by norm_num) ?_
  refine seq_sorted 4 5 _ _ (closeFdsLoop_stage os cfg.fds_to_close) (by norm_num) ?_
  refine seq_sorted 5 6 _ _ (redirectStage_stage cfg os _) (by norm_num) ?_
  exact sortedFrom_of_all 7 6 (by norm_num) _ (forkStage_stage cfg os _)

/-- C3 counterexample: closing stdin fails after the stderr duplicate was
created (the trace contains the `dup`), yet the "unable to close stdin"
message is formatted directly, with no dup2 restoration attempt anywhere in
the run — contradicting the claim for stream-close failures. -/
theorem C3_counterexample :
    Ev.dupStderrEv 3 ∈ (runMain cfgDefault osC3).1 ∧
    Ev.errMsg .closeStdinFailed ∈ (runMain cfgDefault osC3).1 ∧
    (runMain cfgDefault osC3).1.all (fun e => !isReportEv e) = true ∧
    (runMain cfgDefault osC3).2 = .exitFailure := by
  decide

/-- C3 (amended): the fatal conditions at stderr close, the three stream
reopens, stat, fork, setsid, exec, pid-file validation and pid-file write all
report through the restore-then-print idiom: a late-kind message is never
printed bare, and when the dup2 restoration fails no late-kind message is
written at all.  (The stdin-close, stdout-close and pid-file-open failure
paths print directly instead.) -/
theorem C3_late_reports_via_dup2 (cfg : iexec_config) (os : OS) :
    (runMain cfg os).1.all (fun e => !bareLate e) = true ∧
    (os.dup2_ok = false →
      (runMain cfg os).1.all (fun e => !writtenLateMsg e) = true) := by
  constructor
  · rw [runMain_fst]
    apply mainChain_all
    · exact argsStage_all cfg _ rfl
    · exact rlimitLoop_all cfg os _
        (fun i => rlimitStep_all cfg os i _ (fun _ => rfl) (fun _ => rfl) (fun _ _ => rfl)
          (fun _ => rfl) (fun _ => rfl)) _
    · exact userStage_all cfg os _ (fun _ => rfl) (fun _ => rfl) rfl
    · exact preserverStage_all cfg os _ (fun _ => rfl) (fun _ => rfl) (fun _ => rfl)
        (fun _ => rfl) (fun _ => rfl) (fun _ => rfl) rfl
    · exact chdirStage_all cfg os _ (fun _ => rfl) (fun _ => rfl)
    · exact closeFdsLoop_all os _ _ (fun _ _ => ⟨rfl, rfl⟩)
    · exact redirectStage_all cfg os _ _ (fun _ => rfl) rfl rfl rfl rfl rfl rfl rfl rfl
        (fun _ _ _ => rfl) (fun _ => rfl) (fun _ => rfl) (fun _ => rfl)
    · exact forkStage_all cfg os _ _ (fun _ => rfl) (fun _ => rfl) rfl (fun _ => rfl) rfl
        (fun _ => rfl) rfl (fun _ => rfl) (fun _ => rfl) (fun _ => rfl) (fun _ _ => rfl)
        (fun _ _ => rfl) rfl (fun _ => rfl)
  · intro hdup
    rw [runMain_fst]
    apply mainChain_all
    · exact argsStage_all cfg _ rfl
    · exact rlimitLoop_all cfg os _
        (fun i => rlimitStep_all cfg os i _ (fun _ => rfl) (fun _ => rfl) (fun _ _ => rfl)
          (fun _ => rfl) (fun _ => rfl)) _
    · exact userStage_all cfg os _ (fun _ => rfl) (fun _ => rfl) rfl
    · exact preserverStage_all cfg os _ (fun _ => rfl) (fun _ => rfl) (fun _ => rfl)
        (fun _ => rfl) (fun _ => rfl) (fun _ => rfl) rfl
    · exact chdirStage_all cfg os _ (fun _ => rfl) (fun _ => rfl)
    · exact closeFdsLoop_all os _ _ (fun _ _ => ⟨rfl, rfl⟩)
    · exact redirectStage_all cfg os _ _ (fun _ => rfl) rfl rfl
        (by simp [writtenLateMsg, hdup]) (by simp [writtenLateMsg, hdup])
        (by simp [writtenLateMsg, hdup]) (by simp [writtenLateMsg, hdup])
        (by simp [writtenLateMsg, hdup]) (by simp [writtenLateMsg, hdup])
        (fun _ _ _ => rfl) (fun _ => rfl) (fun _ => rfl) (fun _ => rfl)
    · exact forkStage_all cfg os _ _ (fun _ => rfl) (fun _ => rfl) rfl (fun _ => rfl)
        (by simp [writtenLateMsg, hdup]) (fun q => by simp [writtenLateMsg, hdup])
        (by simp [writtenLateMsg, hdup]) (fun q => by simp [writtenLateMsg, hdup])
        (fun q => by simp [writtenLateMsg, hdup])
        (fun _ => rfl) (fun _ _ => rfl) (fun _ _ => rfl) rfl (fun _ => rfl)

/-- C3 witness: a concrete run with failing dup2 restoration: no late-kind
message is printed bare, and none is written at all. -/
theorem C3_witness :
    (runMain cfgDefault osC3w).1.all (fun e => !bareLate e) = true ∧
    (runMain cfgDefault osC3w).1.all (fun e => !writtenLateMsg e) = true :=
  ⟨(C3_late_reports_via_dup2 cfgDefault osC3w).1,
   (C3_late_reports_via_dup2 cfgDefault osC3w).2 rfl⟩

/-- C8 counterexample: with `keep_open` true but descriptor 1 in the explicit
close list, the run closes descriptor 1 — the program does not uniformly leave
descriptors 0/1/2 untouched for every configuration with `keep_open` set. -/
theorem C8_counterexample :
    cfgC8.keep_open = true ∧
    Ev.closeFdEv 1 ∈ (runMain cfgC8 osOK).1 := by
  decide

/-- C8 (amended): with `keep_open` true and no explicitly closed descriptor
among 0/1/2, the run never closes, reopens or re-targets descriptors 0/1/2,
and performs none of the stream-redirection machinery (path validation,
stderr duplication, closes, freopens, stats, truncation). -/
theorem C8_keep_open_frame (cfg : iexec_config) (os : OS)
    (hk : cfg.keep_open = true)
    (hfds : cfg.fds_to_close.all (fun d => d != 0 && d != 1 && d != 2) = true) :
    (runMain cfg os).1.all (fun e => !touchesStd e) = true := by
  rw [runMain_fst]
  apply mainChain_all
  · exact argsStage_all cfg _ rfl
  · exact rlimitLoop_all cfg os _
      (fun i => rlimitStep_all cfg os i _ (fun _ => rfl) (fun _ => rfl) (fun _ _ => rfl)
        (fun _ => rfl) (fun _ => rfl)) _
  · exact userStage_all cfg os _ (fun _ => rfl) (fun _ => rfl) rfl
  · have hp : preserverStage cfg os = .cont [] := by
      unfold preserverStage
      rw [if_pos hk]
    rw [hp]
    rfl
  · exact chdirStage_all cfg os _ (fun _ => rfl) (fun _ => rfl)
  · apply closeFdsLoop_all
    intro fd hfd
    have hne := List.all_eq_true.mp hfds fd hfd
    refine ⟨?_, rfl⟩
    simp only [touchesStd]
    simp only [Bool.and_eq_true, bne_iff_ne, ne_eq] at hne
    simp [hne.1.1, hne.1.2, hne.2]
  · have hr : redirectStage cfg os (savedFd cfg os) = .cont [] := by
      unfold redirectStage
      rw [if_pos hk]
    rw [hr]
    rfl
  · have hsv : savedFd cfg os = 2 := by
      unfold savedFd
      rw [if_pos hk]
    rw [hsv]
    exact forkStage_all cfg os 2 _ (fun _ => rfl) (fun _ => rfl) rfl (fun _ => rfl)
      (by simp [touchesStd]) (fun _ => by simp [touchesStd]) (by simp [touchesStd])
      (fun _ => by simp [touchesStd]) (fun _ => by simp [touchesStd])
      (fun _ => rfl) (fun _ _ => rfl) (fun _ _ => rfl) rfl (fun _ => rfl)

/-- C8 witness: keep_open with explicit close list [5]: descriptors 0/1/2 are
untouched and the redirection machinery is absent from the trace. -/
theorem C8_witness :
    (cfgC8w.keep_open = true ∧
     cfgC8w.fds_to_close.all (fun d => d != 0 && d != 1 && d != 2) = true) ∧
    (runMain cfgC8w osOK).1.all (fun e => !touchesStd e) = true :=
  ⟨⟨rfl, by decide⟩, C8_keep_open_frame cfgC8w osOK rfl (by decide)⟩

/-- The resource-limit stage is a no-op when no limit option was given. -/
theorem rlimitStage_skip (cfg : iexec_config) (os : OS)
    (h : limitsUntouched cfg = true) :
    rlimitStage cfg os = .cont [] := by
  apply rlimitLoop_skip
  intro i hi
  have := List.all_eq_true.mp h i hi
  simp only [Bool.and_eq_true, decide_eq_true_eq] at this
  exact this

/-- C6 counterexample: the close-on-exec fcntl on the saved duplicate fails —
the run prints the diagnostic but proceeds all the way to a successful exec,
contradicting "the program does not proceed to exec with a leaking
descriptor". -/
theorem C6_counterexample :
    osC6.cloexec_ok = false ∧
    Ev.errMsg .cannotCloexec ∈ (runMain cfgDefault osC6).1 ∧
    (runMain cfgDefault osC6).2 = .childExec "prog" ["prog"] := by
  decide

/-- C6 (amended): when streams will be redirected and the three path checks
pass, the preserver duplicates stderr; when the dup succeeds and the fcntl
succeeds the duplicate is marked close-on-exec before redirection starts; when
the fcntl fails a diagnostic is printed; in every case the preserver continues
(neither a failed dup nor a failed fcntl stops the program, so the descriptor
may leak into the exec'd program). -/
theorem C6_preserver_best_effort (cfg : iexec_config) (os : OS)
    (hk : cfg.keep_open = false)
    (h1 : accessFatal os.access_stdin = false)
    (h2 : accessFatal os.access_stdout = false)
    (h3 : accessFatal os.access_stderr = false) :
    (os.dup_result ≥ 0 → os.cloexec_ok = true →
      preserverStage cfg os = .cont
        [.accessEv cfg.use_stdin_file, .accessEv cfg.use_stdout_file,
         .accessEv cfg.use_stderr_file, .dupStderrEv os.dup_result,
         .setCloexecEv os.dup_result]) ∧
    (os.dup_result ≥ 0 → os.cloexec_ok = false →
      Ev.errMsg .cannotCloexec ∈ (preserverStage cfg os).trace) ∧
    (preserverStage cfg os).isCont = true := by
  refine ⟨?_, ?_, ?_⟩
  · intro hd hc
    simp [preserverStage, hk, h1, h2, h3, hd, hc]
  · intro hd hc
    simp [preserverStage, hk, h1, h2, h3, hd, hc]
  · unfold preserverStage
    rw [if_neg (by simp [hk]), if_neg (by simp [h1]), if_neg (by simp [h2]),
        if_neg (by simp [h3])]
    simp only []
    split
    · split <;> rfl
    · rfl

/-- C6 witness: a run where dup and fcntl both succeed, and one where the
fcntl fails: the preserver continues in both. -/
theorem C6_witness :
    (cfgDefault.keep_open = false ∧ accessFatal osOK.access_stdin = false ∧
     accessFatal osOK.access_stdout = false ∧ accessFatal osOK.access_stderr = false ∧
     osOK.dup_result ≥ 0 ∧ osOK.cloexec_ok = true) ∧
    preserverStage cfgDefault osOK = .cont
      [.accessEv "/dev/null", .accessEv "/dev/null", .accessEv "/dev/null",
       .dupStderrEv 3, .setCloexecEv 3] ∧
    Ev.errMsg .cannotCloexec ∈ (preserverStage cfgDefault osC6).trace ∧
    (preserverStage cfgDefault osC6).isCont = true :=
  ⟨⟨rfl, rfl, rfl, rfl, by decide, rfl⟩,
   (C6_preserver_best_effort cfgDefault osOK rfl rfl rfl rfl).1 (by decide) rfl,
   (C6_preserver_best_effort cfgDefault osC6 rfl rfl rfl rfl).2.1 (by decide) rfl,
   (C6_preserver_best_effort cfgDefault osC6 rfl rfl rfl rfl).2.2⟩

/-- C9: when the fork succeeds (parent side), a configured pid file is
validated, opened with mode "w" (truncate/rewrite), written with exactly the
decimal child pid followed by a single newline, and closed, after which the
parent exits successfully; with no pid-file path configured, no pid-file
event occurs at all and the parent exits successfully. -/
theorem C9_pid_file_roundtrip (cfg : iexec_config) (os : OS) (saved : Int) (p : String)
    (hpos : os.fork_result > 0)
    (hacc : accessFatal os.pid_access = false)
    (hopen : os.fopen_pid_ok = true)
    (hwrite : os.fprintf_pid_ok = true) :
    (cfg.use_pid_file = none →
      forkStage cfg os saved = .done [.forkEv os.fork_result] .parentExit0) ∧
    (cfg.use_pid_file = some p →
      forkStage cfg os saved = .done
        [.forkEv os.fork_result, .pidAccessEv p, .pidOpenEv p "w",
         .pidWriteEv p (toString os.fork_result ++ "\n"), .pidCloseEv] .parentExit0) := by
  have hz : ¬ os.fork_result = 0 := by omega
  have hneg : ¬ os.fork_result < 0 := by omega
  constructor <;> intro hp <;>
    simp [forkStage, hz, hneg, hp, hacc, hopen, hwrite]

/-- C9 witness: fork returns pid 42; with a configured pid file the parent
writes exactly "42\n" to it in truncate mode; with none configured, no
pid-file event occurs. -/
theorem C9_witness :
    (osOK.fork_result > 0 ∧ accessFatal osOK.pid_access = false ∧
     osOK.fopen_pid_ok = true ∧ osOK.fprintf_pid_ok = true) ∧
    forkStage cfgC9 osOK 3 = .done
      [.forkEv osOK.fork_result, .pidAccessEv "/run/d.pid", .pidOpenEv "/run/d.pid" "w",
       .pidWriteEv "/run/d.pid" (toString osOK.fork_result ++ "\n"), .pidCloseEv]
      .parentExit0 ∧
    forkStage cfgDefault osOK 3 = .done [.forkEv osOK.fork_result] .parentExit0 :=
  ⟨⟨by decide, rfl, rfl, rfl⟩,
   (C9_pid_file_roundtrip cfgC9 osOK 3 "/run/d.pid" (by decide) rfl rfl rfl).2 rfl,
   (C9_pid_file_roundtrip cfgDefault osOK 3 "/run/d.pid" (by decide) rfl rfl rfl).1 rfl⟩

/-- The source `same_file` agrees with the spec reading: with both stats
succeeding, it answers 1 exactly when device and inode both agree. -/
theorem sameFileAgrees_true (os : OS) (fn1 fn2 : String) :
    sameFileAgrees os fn1 fn2 = true := by
  unfold sameFileAgrees same_file
  repeat' split
  all_goals simp_all

/-- When the first path is missing and its creation succeeds, `same_file`
creates it before examining the second path. -/
theorem createsWhenMissing_true (os : OS) (fn1 fn2 : String) :
    createsWhenMissing os fn1 fn2 = true := by
  unfold createsWhenMissing same_file
  repeat' split
  all_goals simp_all

/-- C4: when `same_file` reports that the stdout and stderr targets are one
file, both streams are reopened in append mode with the shared file truncated
exactly once, right after the stdout reopen; when it reports different files,
or a stat failure with ENOENT (target absent), both are reopened in
write/truncate mode with no explicit truncation.  `same_file` itself answers
by device/inode equality and creates the stdout path first when absent. -/
theorem C4_same_file_modes (cfg : iexec_config) (os : OS) (saved : Int)
    (hk : cfg.keep_open = false)
    (hc0 : os.close_std_ok 0 = true) (hc1 : os.close_std_ok 1 = true)
    (hc2 : os.close_std_ok 2 = true)
    (hfi : os.freopen_stdin_ok = true) (hfo : os.freopen_stdout_ok = true)
    (hfe : os.freopen_stderr_ok = true) (hft : os.ftruncate_ok = true) :
    ((same_file os cfg.use_stdout_file cfg.use_stderr_file).2.1 = 1 →
      redirectStage cfg os saved = .cont
        ([.closeStdEv 0, .closeStdEv 1, .closeStdEv 2,
          .freopenEv cfg.use_stdin_file "r" 0] ++
         (same_file os cfg.use_stdout_file cfg.use_stderr_file).1 ++
         [.freopenEv cfg.use_stdout_file "a" 1, .ftruncateEv 1,
          .freopenEv cfg.use_stderr_file "a" 2])) ∧
    (((same_file os cfg.use_stdout_file cfg.use_stderr_file).2.1 = 0 ∨
      ((same_file os cfg.use_stdout_file cfg.use_stderr_file).2.1 < 0 ∧
       (same_file os cfg.use_stdout_file cfg.use_stderr_file).2.2 = some .enoent)) →
      redirectStage cfg os saved = .cont
        ([.closeStdEv 0, .closeStdEv 1, .closeStdEv 2,
          .freopenEv cfg.use_stdin_file "r" 0] ++
         (same_file os cfg.use_stdout_file cfg.use_stderr_file).1 ++
         [.freopenEv cfg.use_stdout_file "w" 1,
          .freopenEv cfg.use_stderr_file "w" 2])) ∧
    sameFileAgrees os cfg.use_stdout_file cfg.use_stderr_file = true ∧
    createsWhenMissing os cfg.use_stdout_file cfg.use_stderr_file = true := by
  refine ⟨?_, ?_, sameFileAgrees_true os _ _, createsWhenMissing_true os _ _⟩
  · intro h1
    simp [redirectStage, hk, hc0, hc1, hc2, hfi, h1, hfo, hft, hfe]
  · intro h2
    rcases h2 with h0 | ⟨hn, he⟩
    · simp [redirectStage, hk, hc0, hc1, hc2, hfi, h0, hfo, hfe]
    · have hne1 : (same_file os cfg.use_stdout_file cfg.use_stderr_file).2.1 ≠ 1 := by
        omega
      simp [redirectStage, hk, hc0, hc1, hc2, hfi, hn, he, hne1, hfo, hfe]

/-- C4 witness: both targets stat to device 1, inode 1: append mode with one
truncation after the stdout reopen. -/
theorem C4_witness :
    (same_file osC4 cfgDefault.use_stdout_file cfgDefault.use_stderr_file).2.1 = 1 ∧
    redirectStage cfgDefault osC4 3 = .cont
      ([.closeStdEv 0, .closeStdEv 1, .closeStdEv 2,
        .freopenEv cfgDefault.use_stdin_file "r" 0] ++
       (same_file osC4 cfgDefault.use_stdout_file cfgDefault.use_stderr_file).1 ++
       [.freopenEv cfgDefault.use_stdout_file "a" 1, .ftruncateEv 1,
        .freopenEv cfgDefault.use_stderr_file "a" 2]) :=
  ⟨by decide,
   (C4_same_file_modes cfgDefault osC4 3 rfl rfl rfl rfl rfl rfl rfl rfl).1 (by decide)⟩

/-- C10: when the stdout and stderr targets are one file and the explicit
truncation after the stdout reopen fails, the failure is reported through the
restore-then-print idiom but the run continues through the stderr reopen, the
fork and a successful exec — the truncation failure is not fatal. -/
theorem C10_truncate_failure_nonfatal (cfg : iexec_config) (os : OS)
    (prog : String) (rest : List String)
    (hargs : cfg.remaining_argv = prog :: rest)
    (hlim : limitsUntouched cfg = true)
    (huser : cfg.username = none)
    (hwd : cfg.use_working_dir = none)
    (hfds : cfg.fds_to_close = [])
    (hk : cfg.keep_open = false)
    (humask : cfg.umask < 0)
    (ha1 : accessFatal os.access_stdin = false)
    (ha2 : accessFatal os.access_stdout = false)
    (ha3 : accessFatal os.access_stderr = false)
    (hdup : os.dup_result ≥ 0)
    (hclo : os.cloexec_ok = true)
    (hc0 : os.close_std_ok 0 = true) (hc1 : os.close_std_ok 1 = true)
    (hc2 : os.close_std_ok 2 = true)
    (hfi : os.freopen_stdin_ok = true)
    (hsf : (same_file os cfg.use_stdout_file cfg.use_stderr_file).2.1 = 1)
    (hfo : os.freopen_stdout_ok = true)
    (hft : os.ftruncate_ok = false)
    (hfe : os.freopen_stderr_ok = true)
    (hfork : os.fork_result = 0)
    (hsid : os.setsid_ok = true)
    (hexec : os.exec_ok = true) :
    runMain cfg os =
      ([.accessEv cfg.use_stdin_file, .accessEv cfg.use_stdout_file,
        .accessEv cfg.use_stderr_file, .dupStderrEv os.dup_result,
        .setCloexecEv os.dup_result,
        .closeStdEv 0, .closeStdEv 1, .closeStdEv 2,
        .freopenEv cfg.use_stdin_file "r" 0] ++
       (same_file os cfg.use_stdout_file cfg.use_stderr_file).1 ++
       [.freopenEv cfg.use_stdout_file "a" 1, .ftruncateEv 1,
        .reportViaDup2 os.dup_result os.dup2_ok .truncateError,
        .freopenEv cfg.use_stderr_file "a" 2,
        .forkEv 0, .setsidEv, .execEv prog],
       .childExec prog (prog :: rest)) := by
  have hR := rlimitStage_skip cfg os hlim
  have hsaved : savedFd cfg os = os.dup_result := by
    unfold savedFd
    rw [if_neg (by simp [hk])]
  have humask2 : ¬ cfg.umask ≥ 0 := by omega
  unfold runMain mainChain
  rw [hR, hsaved]
  simp [argsStage, hargs, userStage, huser, preserverStage, hk, ha1, ha2, ha3, hdup,
        hclo, chdirStage, hwd, hfds, closeFdsLoop, redirectStage, hc0, hc1, hc2, hfi,
        hsf, hfo, hft, hfe, forkStage, hfork, humask2, hsid, hexec]

/-- C10 witness: a concrete run with the shared target, failing truncation,
and a successful child exec. -/
theorem C10_witness :
    ((same_file osC10 cfgDefault.use_stdout_file cfgDefault.use_stderr_file).2.1 = 1 ∧
     osC10.ftruncate_ok = false ∧ osC10.fork_result = 0) ∧
    runMain cfgDefault osC10 =
      ([.accessEv cfgDefault.use_stdin_file, .accessEv cfgDefault.use_stdout_file,
        .accessEv cfgDefault.use_stderr_file, .dupStderrEv osC10.dup_result,
        .setCloexecEv osC10.dup_result,
        .closeStdEv 0, .closeStdEv 1, .closeStdEv 2,
        .freopenEv cfgDefault.use_stdin_file "r" 0] ++
       (same_file osC10 cfgDefault.use_stdout_file cfgDefault.use_stderr_file).1 ++
       [.freopenEv cfgDefault.use_stdout_file "a" 1, .ftruncateEv 1,
        .reportViaDup2 osC10.dup_result osC10.dup2_ok .truncateError,
        .freopenEv cfgDefault.use_stderr_file "a" 2,
        .forkEv 0, .setsidEv, .execEv "prog"],
       .childExec "prog" ["prog"]) :=
  ⟨⟨by decide, rfl, rfl⟩,
   C10_truncate_failure_nonfatal cfgDefault osC10 "prog" [] rfl (by decide) rfl rfl rfl
     rfl (by decide) rfl rfl rfl (by decide) rfl rfl rfl rfl rfl (by decide) rfl rfl rfl
     rfl rfl rfl⟩
